import Mathlib

/-!
Shallow embedding of the two Lit web components of the repository
(`src/components/profile-card.ts` and `src/components/skill-badge.ts`).

The rendered template is modelled as a tree of nodes; a dispatched
`CustomEvent` is modelled as a record of its name, `detail` payload,
`bubbles` and `composed` flags.  Each component instance is a record of
its reactive properties together with a log of the events it has
dispatched so far; the event handlers are state transformers appending
to that log, exactly mirroring the guards of the TypeScript source.
-/

/-- A `CustomEvent` as dispatched by `this.dispatchEvent(new CustomEvent(...))`:
its event name, the `detail` payload (a plain string-to-string record),
and the `bubbles` / `composed` flags of the constructor options. -/
structure Event where
  name : String
  detail : List (String × String)
  bubbles : Bool
  composed : Bool
deriving DecidableEq, Repr

/-- A node of the rendered template: an element with a tag, an attribute
list and children, a text interpolation, or the `<slot>` element. -/
inductive Node where
  | element : String → List (String × String) → List Node → Node
  | text : String → Node
  | slot : Node
deriving Repr

/-- Look up a key in an attribute list (first match wins, as in HTML). -/
def getAttr : List (String × String) → String → Option String
  | [], _ => none
  | (k, v) :: rest, key => if k = key then some v else getAttr rest key

/-- The value of attribute `key` on a node (`none` on text and slot nodes). -/
def Node.attr : Node → String → Option String
  | .element _ attrs _, key => getAttr attrs key
  | _, _ => none

mutual

/-- The attribute lists of all `img` elements occurring in a node, in
document order. -/
def Node.imgs : Node → List (List (String × String))
  | .element tag attrs children =>
      (if tag = "img" then [attrs] else []) ++ Node.imgsList children
  | .text _ => []
  | .slot => []

/-- The attribute lists of all `img` elements occurring in a list of nodes. -/
def Node.imgsList : List Node → List (List (String × String))
  | [] => []
  | n :: ns => Node.imgs n ++ Node.imgsList ns

end

/-- A user input delivered to the component root: a click, or a keydown
carrying the value of `event.key`. -/
inductive Input where
  | click : Input
  | keydown : String → Input
deriving DecidableEq, Repr

/-- An instance of the `profile-card` element: its four reactive
properties (`name`, `title`, `avatar` as strings, `clickable` as a
boolean, all with the defaults of the source) together with the log of
events the instance has dispatched. -/
structure ProfileCard where
  name : String := ""
  title : String := ""
  avatar : String := ""
  clickable : Bool := false
  dispatched : List Event := []
deriving DecidableEq, Repr

namespace ProfileCard

/-- The `CustomEvent` built in `ProfileCard._handleClick`:
`new CustomEvent("profile-click", { detail: { name, title }, bubbles: true, composed: true })`. -/
def clickEvent (c : ProfileCard) : Event :=
  { name := "profile-click"
    detail := [("name", c.name), ("title", c.title)]
    bubbles := true
    composed := true }

/-- Source `ProfileCard._handleClick`: if `this.clickable`, dispatch the
`profile-click` event; otherwise do nothing. -/
def handleClick (c : ProfileCard) : ProfileCard :=
  if c.clickable then
    { c with dispatched := c.dispatched ++ [c.clickEvent] }
  else c

/-- Source `ProfileCard._handleKeyDown`: if `this.clickable && (e.key === "Enter"
|| e.key === " ")`, call `e.preventDefault()` and then `_handleClick()`.
Returns the new instance state and whether `preventDefault` was called. -/
def handleKeyDown (c : ProfileCard) (key : String) : ProfileCard × Bool :=
  if c.clickable = true ∧ (key = "Enter" ∨ key = " ") then
    (c.handleClick, true)
  else (c, false)

/-- The template of `ProfileCard.render`, as a function of the four
property values it reads: the `.container` div (with `role` and
`tabindex` decided by `clickable`) holding the header (the optional
avatar `img`, shown only when `this.avatar` is truthy, i.e. non-empty,
and the info block with the name and the optional title) and the
content div with the slot. -/
def renderView (name title avatar : String) (clickable : Bool) : Node :=
  Node.element "div"
    [("class", "container"), ("part", "container"),
     ("role", if clickable then "button" else "article"),
     ("tabindex", if clickable then "0" else "-1")]
    [Node.element "div" [("class", "header"), ("part", "header")]
      ((if avatar = "" then [] else
          [Node.element "img"
            [("class", "avatar"), ("src", avatar),
             ("alt", "Avatar of " ++ name), ("loading", "lazy")] []]) ++
       [Node.element "div" [("class", "info")]
         ([Node.element "h2" [("class", "name")] [Node.text name]] ++
          (if title = "" then [] else
            [Node.element "p" [("class", "title")] [Node.text title]]))]),
     Node.element "div" [("class", "content")] [Node.slot]]

/-- Source `ProfileCard.render`: reads exactly the current values of `name`,
`title`, `avatar` and `clickable` and produces the template. -/
def render (c : ProfileCard) : Node :=
  renderView c.name c.title c.avatar c.clickable

/-- Deliver one user input to the instance (the template wires `@click`
to `_handleClick` and `@keydown` to `_handleKeyDown`). -/
def step (c : ProfileCard) : Input → ProfileCard
  | .click => c.handleClick
  | .keydown k => (c.handleKeyDown k).1

/-- Deliver a sequence of user inputs to the instance. -/
def run (c : ProfileCard) : List Input → ProfileCard
  | [] => c
  | i :: is => run (c.step i) is

end ProfileCard

/-- Insert a key into a JavaScript object literal built left to right:
a repeated key overwrites the earlier value in place, a new key is
appended (the semantics of `{ badge: true, [this.level]: true,
clickable: this.clickable }`). -/
def jsObjInsert : List (String × Bool) → String → Bool → List (String × Bool)
  | [], k, v => [(k, v)]
  | (k', v') :: rest, k, v =>
      if k' = k then (k, v) :: rest
      else (k', v') :: jsObjInsert rest k v

/-- Lit `classMap` directive on initial render: the keys of the object
whose value is truthy, in object order; the committed class attribute is
their space-join.  A key is a raw string and may itself contain
whitespace, so the keys are not in general the class tokens the DOM
derives from the committed attribute — that token view is `domTokens`
below. -/
def classMap (obj : List (String × Bool)) : List String :=
  (obj.filter (fun p => p.2)).map (fun p => p.1)

/-- The four values of the TypeScript union type of `SkillBadge.level`. -/
def validLevels : List String := ["beginner", "intermediate", "advanced", "expert"]

/-- An instance of the `skill-badge` element: its reactive properties
(`skill` and `level` as strings, `clickable` as a boolean, with the
defaults of the source) and the log of dispatched events.  `level` is
declared in the source with the union type
`"beginner" | "intermediate" | "advanced" | "expert"`, but that type is
erased at runtime and the attribute converter stores whatever string the
host supplies, so it is modelled as an arbitrary string. -/
structure SkillBadge where
  skill : String := ""
  level : String := "intermediate"
  clickable : Bool := false
  dispatched : List Event := []
deriving DecidableEq, Repr

namespace SkillBadge

/-- The class object built in `SkillBadge.render`:
`{ badge: true, [this.level]: true, clickable: this.clickable }`. -/
def classObj (level : String) (clickable : Bool) : List (String × Bool) :=
  jsObjInsert (jsObjInsert (jsObjInsert [] "badge" true) level true) "clickable" clickable

/-- The truthy keys of the class object, in order: `classMap` commits
their space-join as the class attribute of the root `span`.  Each entry
is a raw object key; the class tokens the DOM actually derives from the
committed attribute are `rootClassTokens` below. -/
def classes (level : String) (clickable : Bool) : List String :=
  classMap (classObj level clickable)

/-- The `CustomEvent` built in `SkillBadge._handleClick`:
`new CustomEvent("badge-click", { detail: { skill, level }, bubbles: true, composed: true })`. -/
def clickEvent (c : SkillBadge) : Event :=
  { name := "badge-click"
    detail := [("skill", c.skill), ("level", c.level)]
    bubbles := true
    composed := true }

/-- Source `SkillBadge._handleClick`: if `this.clickable`, dispatch the
`badge-click` event; otherwise do nothing. -/
def handleClick (c : SkillBadge) : SkillBadge :=
  if c.clickable then
    { c with dispatched := c.dispatched ++ [c.clickEvent] }
  else c

/-- Source `SkillBadge._handleKeyDown`: if `this.clickable && (e.key === "Enter"
|| e.key === " ")`, call `e.preventDefault()` and then `_handleClick()`.
Returns the new instance state and whether `preventDefault` was called. -/
def handleKeyDown (c : SkillBadge) (key : String) : SkillBadge × Bool :=
  if c.clickable = true ∧ (key = "Enter" ∨ key = " ") then
    (c.handleClick, true)
  else (c, false)

/-- The template of `SkillBadge.render`, as a function of the property
values it reads: a `span` whose class attribute is the `classMap` of the
class object, with `role` and `tabindex` decided by `clickable`, the
`aria-label` interpolation, and the skill text as content. -/
def renderView (skill level : String) (clickable : Bool) : Node :=
  Node.element "span"
    [("class", String.intercalate " " (classes level clickable)),
     ("part", "badge"),
     ("role", if clickable then "button" else "status"),
     ("tabindex", if clickable then "0" else "-1"),
     ("aria-label", skill ++ " - " ++ level ++ " level")]
    [Node.text skill]

/-- Source `SkillBadge.render`: reads exactly the current values of `skill`,
`level` and `clickable` and produces the template. -/
def render (c : SkillBadge) : Node :=
  renderView c.skill c.level c.clickable

/-- Deliver one user input to the instance. -/
def step (c : SkillBadge) : Input → SkillBadge
  | .click => c.handleClick
  | .keydown k => (c.handleKeyDown k).1

/-- Deliver a sequence of user inputs to the instance. -/
def run (c : SkillBadge) : List Input → SkillBadge
  | [] => c
  | i :: is => run (c.step i) is

end SkillBadge

/-- Membership in ASCII whitespace (TAB, LF, FF, CR, SPACE), the
separator set the DOM uses when it splits a committed `class` attribute
value into class tokens. -/
def isAsciiWhitespace (ch : Char) : Bool :=
  ch == ' ' || ch == '\t' || ch == '\n' || ch == '\x0c' || ch == '\r'

/-- Accumulating splitter behind `domTokens`: walks the characters,
flushing the accumulated run at each ASCII whitespace character and at
the end, and drops empty runs (consecutive separators, leading or
trailing whitespace, or an empty attribute yield no token). -/
def tokensAux : List Char → List Char → List String
  | [], acc => if acc = [] then [] else [String.mk acc]
  | ch :: rest, acc =>
      if isAsciiWhitespace ch then
        (if acc = [] then [] else [String.mk acc]) ++ tokensAux rest []
      else
        tokensAux rest (acc ++ [ch])

/-- The class tokens the DOM derives from a committed `class` attribute
value: the maximal runs of non-whitespace characters, in order, with
empty tokens dropped.  A `classMap` key containing whitespace therefore
contributes each of its tokens separately, and an empty key contributes
none. -/
def domTokens (s : String) : List String := tokensAux s.data []

/-- The class tokens on the rendered badge root: `renderView` commits
exactly `String.intercalate " " (classes level clickable)` as the class
attribute of the root `span`, and the DOM whitespace-splits that
committed value into the element's class list. -/
def SkillBadge.rootClassTokens (level : String) (clickable : Bool) : List String :=
  domTokens (String.intercalate " " (SkillBadge.classes level clickable))

/-!
Helper lemmas shared by the claim theorems: the handlers only ever
append to the dispatch log, never touching the reactive properties.
-/

theorem ProfileCard.handleClick_frame (c : ProfileCard) :
    c.handleClick.name = c.name ∧ c.handleClick.title = c.title ∧
    c.handleClick.avatar = c.avatar ∧ c.handleClick.clickable = c.clickable := by
  unfold handleClick; split <;> simp

theorem ProfileCard.handleKeyDown_frame (c : ProfileCard) (k : String) :
    (c.handleKeyDown k).1.name = c.name ∧ (c.handleKeyDown k).1.title = c.title ∧
    (c.handleKeyDown k).1.avatar = c.avatar ∧ (c.handleKeyDown k).1.clickable = c.clickable := by
  unfold handleKeyDown; split
  · simpa using c.handleClick_frame
  · simp

theorem ProfileCard.step_frame (c : ProfileCard) (i : Input) :
    (c.step i).name = c.name ∧ (c.step i).title = c.title ∧
    (c.step i).avatar = c.avatar ∧ (c.step i).clickable = c.clickable := by
  cases i with
  | click => exact c.handleClick_frame
  | keydown k => exact c.handleKeyDown_frame k

theorem ProfileCard.step_clickEvent (c : ProfileCard) (i : Input) :
    (c.step i).clickEvent = c.clickEvent := by
  have h := c.step_frame i
  unfold clickEvent
  rw [h.1, h.2.1]

theorem ProfileCard.step_not_clickable (c : ProfileCard) (i : Input)
    (h : c.clickable = false) : c.step i = c := by
  cases i <;> simp [step, handleClick, handleKeyDown, h]

theorem ProfileCard.run_not_clickable (c : ProfileCard) (ins : List Input)
    (h : c.clickable = false) : c.run ins = c := by
  induction ins generalizing c with
  | nil => rfl
  | cons i is ih =>
    show (c.step i).run is = c
    rw [c.step_not_clickable i h, ih c h]

theorem ProfileCard.handleClick_events (c : ProfileCard) :
    ∀ e ∈ c.handleClick.dispatched, e ∈ c.dispatched ∨ e = c.clickEvent := by
  intro e he
  unfold handleClick at he
  split at he
  · simp only [List.mem_append, List.mem_singleton] at he
    exact he
  · exact Or.inl he

theorem ProfileCard.step_events (c : ProfileCard) (i : Input) :
    ∀ e ∈ (c.step i).dispatched, e ∈ c.dispatched ∨ e = c.clickEvent := by
  cases i with
  | click => exact c.handleClick_events
  | keydown k =>
    intro e he
    simp only [step, handleKeyDown] at he
    by_cases hk : c.clickable = true ∧ (k = "Enter" ∨ k = " ")
    · rw [if_pos hk] at he
      exact c.handleClick_events e he
    · rw [if_neg hk] at he
      exact Or.inl he

theorem ProfileCard.run_events (c : ProfileCard) (ins : List Input) :
    ∀ e ∈ (c.run ins).dispatched, e ∈ c.dispatched ∨ e = c.clickEvent := by
  induction ins generalizing c with
  | nil => exact fun e he => Or.inl he
  | cons i is ih =>
    intro e he
    have h1 := ih (c.step i) e he
    rcases h1 with h1 | h1
    · exact c.step_events i e h1
    · rw [c.step_clickEvent i] at h1
      exact Or.inr h1

theorem SkillBadge.sb_handleClick_frame (c : SkillBadge) :
    c.handleClick.skill = c.skill ∧ c.handleClick.level = c.level ∧
    c.handleClick.clickable = c.clickable := by
  unfold handleClick; split <;> simp

theorem SkillBadge.sb_handleKeyDown_frame (c : SkillBadge) (k : String) :
    (c.handleKeyDown k).1.skill = c.skill ∧ (c.handleKeyDown k).1.level = c.level ∧
    (c.handleKeyDown k).1.clickable = c.clickable := by
  unfold handleKeyDown; split
  · simpa using c.sb_handleClick_frame
  · simp

theorem SkillBadge.sb_step_frame (c : SkillBadge) (i : Input) :
    (c.step i).skill = c.skill ∧ (c.step i).level = c.level ∧
    (c.step i).clickable = c.clickable := by
  cases i with
  | click => exact c.sb_handleClick_frame
  | keydown k => exact c.sb_handleKeyDown_frame k

theorem SkillBadge.sb_step_clickEvent (c : SkillBadge) (i : Input) :
    (c.step i).clickEvent = c.clickEvent := by
  have h := c.sb_step_frame i
  unfold clickEvent
  rw [h.1, h.2.1]

theorem SkillBadge.sb_step_not_clickable (c : SkillBadge) (i : Input)
    (h : c.clickable = false) : c.step i = c := by
  cases i <;> simp [step, handleClick, handleKeyDown, h]

theorem SkillBadge.sb_run_not_clickable (c : SkillBadge) (ins : List Input)
    (h : c.clickable = false) : c.run ins = c := by
  induction ins generalizing c with
  | nil => rfl
  | cons i is ih =>
    show (c.step i).run is = c
    rw [c.sb_step_not_clickable i h, ih c h]

theorem SkillBadge.sb_handleClick_events (c : SkillBadge) :
    ∀ e ∈ c.handleClick.dispatched, e ∈ c.dispatched ∨ e = c.clickEvent := by
  intro e he
  unfold handleClick at he
  split at he
  · simp only [List.mem_append, List.mem_singleton] at he
    exact he
  · exact Or.inl he

theorem SkillBadge.sb_step_events (c : SkillBadge) (i : Input) :
    ∀ e ∈ (c.step i).dispatched, e ∈ c.dispatched ∨ e = c.clickEvent := by
  cases i with
  | click => exact c.sb_handleClick_events
  | keydown k =>
    intro e he
    simp only [step, handleKeyDown] at he
    by_cases hk : c.clickable = true ∧ (k = "Enter" ∨ k = " ")
    · rw [if_pos hk] at he
      exact c.sb_handleClick_events e he
    · rw [if_neg hk] at he
      exact Or.inl he

theorem SkillBadge.sb_run_events (c : SkillBadge) (ins : List Input) :
    ∀ e ∈ (c.run ins).dispatched, e ∈ c.dispatched ∨ e = c.clickEvent := by
  induction ins generalizing c with
  | nil => exact fun e he => Or.inl he
  | cons i is ih =>
    intro e he
    have h1 := ih (c.step i) e he
    rcases h1 with h1 | h1
    · exact c.sb_step_events i e h1
    · rw [c.sb_step_clickEvent i] at h1
      exact Or.inr h1

theorem tokensAux_append_ws (ch : Char) (hch : isAsciiWhitespace ch = true)
    (a : List Char) : ∀ acc b : List Char,
    tokensAux (a ++ ch :: b) acc = tokensAux a acc ++ tokensAux b [] := by
  induction a with
  | nil =>
    intro acc b
    simp [tokensAux, hch]
  | cons c a' ih =>
    intro acc b
    by_cases hc : isAsciiWhitespace c = true
    · simp [tokensAux, hc, ih, List.append_assoc]
    · simp [tokensAux, hc, ih]

theorem domTokens_append_space (a b : String) :
    domTokens (a ++ " " ++ b) = domTokens a ++ domTokens b := by
  have hd : ∀ x y : String, (x ++ y).data = x.data ++ y.data := fun _ _ => rfl
  have hdata : (a ++ " " ++ b).data = a.data ++ (' ' :: b.data) := by
    rw [hd, hd]
    simp
  show tokensAux (a ++ " " ++ b).data [] = tokensAux a.data [] ++ tokensAux b.data []
  rw [hdata]
  exact tokensAux_append_ws ' ' (by decide) a.data [] b.data

theorem intercalate_pair (x y : String) :
    String.intercalate " " [x, y] = x ++ " " ++ y := rfl

theorem intercalate_triple (x y z : String) :
    String.intercalate " " [x, y, z] = x ++ " " ++ y ++ " " ++ z := rfl

theorem SkillBadge.sb_rootClassTokens_shape (level : String)
    (hb : ¬ ("badge" = level)) (hcl : ¬ (level = "clickable")) :
    rootClassTokens level false = ["badge"] ++ domTokens level ∧
    rootClassTokens level true = ["badge"] ++ domTokens level ++ ["clickable"] := by
  have h1 : domTokens "badge" = ["badge"] := by decide
  have h2 : domTokens "clickable" = ["clickable"] := by decide
  have hcf : classes level false = ["badge", level] := by
    simp [classes, classObj, jsObjInsert, classMap, hb, hcl]
  have hct : classes level true = ["badge", level, "clickable"] := by
    simp [classes, classObj, jsObjInsert, classMap, hb, hcl]
  constructor
  · rw [rootClassTokens, hcf, intercalate_pair, domTokens_append_space, h1]
  · rw [rootClassTokens, hct, intercalate_triple, domTokens_append_space,
      domTokens_append_space, h1, h2]

/-- C2: with the `clickable` flag false, neither component ever dispatches
an activation event, regardless of any sequence of click and keydown
inputs delivered to its handlers: the dispatch log is unchanged. -/
theorem C2_not_clickable_never_dispatches (c : ProfileCard) (b : SkillBadge)
    (ins ins' : List Input)
    (hc : c.clickable = false) (hb : b.clickable = false) :
    (c.run ins).dispatched = c.dispatched ∧ (b.run ins').dispatched = b.dispatched := by
  rw [c.run_not_clickable ins hc, b.sb_run_not_clickable ins' hb]
  exact ⟨rfl, rfl⟩

/-- Witness for C2: a non-clickable card and badge receive a click, Enter,
Space and a stray key, and the dispatch log stays empty. -/
theorem C2_not_clickable_never_dispatches_witness :
    ({ name := "Sarah", clickable := false : ProfileCard }).clickable = false ∧
    ({ skill := "TypeScript", level := "advanced", clickable := false : SkillBadge }).clickable = false ∧
    (ProfileCard.run { name := "Sarah", clickable := false }
        [Input.click, Input.keydown "Enter", Input.keydown " ", Input.keydown "a"]).dispatched = [] ∧
    (SkillBadge.run { skill := "TypeScript", level := "advanced", clickable := false }
        [Input.click, Input.keydown "Enter", Input.keydown " "]).dispatched = [] :=
  ⟨rfl, rfl,
    (C2_not_clickable_never_dispatches
      { name := "Sarah", clickable := false }
      { skill := "TypeScript", level := "advanced", clickable := false }
      [Input.click, Input.keydown "Enter", Input.keydown " ", Input.keydown "a"]
      [Input.click, Input.keydown "Enter", Input.keydown " "] rfl rfl).1,
    (C2_not_clickable_never_dispatches
      { name := "Sarah", clickable := false }
      { skill := "TypeScript", level := "advanced", clickable := false }
      [Input.click, Input.keydown "Enter", Input.keydown " ", Input.keydown "a"]
      [Input.click, Input.keydown "Enter", Input.keydown " "] rfl rfl).2⟩

/-- C3: with `clickable` true, a click appends exactly one activation
event to the dispatch log; a keydown with Enter or with Space behaves
exactly like the click handler (calling preventDefault), so the payloads
coincide; every other key is a no-op that does not prevent default. -/
theorem C3_keyboard_equivalent_to_click (c : ProfileCard) (b : SkillBadge) (k k' : String)
    (hc : c.clickable = true) (hb : b.clickable = true) :
    (c.handleClick.dispatched = c.dispatched ++ [c.clickEvent] ∧
     c.handleKeyDown "Enter" = (c.handleClick, true) ∧
     c.handleKeyDown " " = (c.handleClick, true) ∧
     (k ≠ "Enter" → k ≠ " " → c.handleKeyDown k = (c, false))) ∧
    (b.handleClick.dispatched = b.dispatched ++ [b.clickEvent] ∧
     b.handleKeyDown "Enter" = (b.handleClick, true) ∧
     b.handleKeyDown " " = (b.handleClick, true) ∧
     (k' ≠ "Enter" → k' ≠ " " → b.handleKeyDown k' = (b, false))) := by
  refine ⟨⟨?_, ?_, ?_, ?_⟩, ?_, ?_, ?_, ?_⟩
  · simp [ProfileCard.handleClick, hc]
  · simp [ProfileCard.handleKeyDown, hc]
  · simp [ProfileCard.handleKeyDown, hc]
  · intro h1 h2
    simp [ProfileCard.handleKeyDown, h1, h2]
  · simp [SkillBadge.handleClick, hb]
  · simp [SkillBadge.handleKeyDown, hb]
  · simp [SkillBadge.handleKeyDown, hb]
  · intro h1 h2
    simp [SkillBadge.handleKeyDown, h1, h2]

/-- Witness for C3: a clickable card and badge at concrete property
values, with "Escape" and "Tab" as the inert other keys. -/
theorem C3_keyboard_equivalent_to_click_witness :
    ({ name := "A", title := "B", clickable := true : ProfileCard }).clickable = true ∧
    ({ skill := "Lit", level := "expert", clickable := true : SkillBadge }).clickable = true ∧
    (({ name := "A", title := "B", clickable := true : ProfileCard }).handleClick.dispatched =
        ({ name := "A", title := "B", clickable := true : ProfileCard }).dispatched ++
          [({ name := "A", title := "B", clickable := true : ProfileCard }).clickEvent] ∧
     ({ name := "A", title := "B", clickable := true : ProfileCard }).handleKeyDown "Enter" =
        (({ name := "A", title := "B", clickable := true : ProfileCard }).handleClick, true) ∧
     ({ name := "A", title := "B", clickable := true : ProfileCard }).handleKeyDown " " =
        (({ name := "A", title := "B", clickable := true : ProfileCard }).handleClick, true) ∧
     ("Escape" ≠ "Enter" → "Escape" ≠ " " →
        ({ name := "A", title := "B", clickable := true : ProfileCard }).handleKeyDown "Escape" =
          ({ name := "A", title := "B", clickable := true : ProfileCard }, false))) ∧
    (({ skill := "Lit", level := "expert", clickable := true : SkillBadge }).handleClick.dispatched =
        ({ skill := "Lit", level := "expert", clickable := true : SkillBadge }).dispatched ++
          [({ skill := "Lit", level := "expert", clickable := true : SkillBadge }).clickEvent] ∧
     ({ skill := "Lit", level := "expert", clickable := true : SkillBadge }).handleKeyDown "Enter" =
        (({ skill := "Lit", level := "expert", clickable := true : SkillBadge }).handleClick, true) ∧
     ({ skill := "Lit", level := "expert", clickable := true : SkillBadge }).handleKeyDown " " =
        (({ skill := "Lit", level := "expert", clickable := true : SkillBadge }).handleClick, true) ∧
     ("Tab" ≠ "Enter" → "Tab" ≠ " " →
        ({ skill := "Lit", level := "expert", clickable := true : SkillBadge }).handleKeyDown "Tab" =
          ({ skill := "Lit", level := "expert", clickable := true : SkillBadge }, false))) :=
  ⟨rfl, rfl,
    C3_keyboard_equivalent_to_click
      { name := "A", title := "B", clickable := true }
      { skill := "Lit", level := "expert", clickable := true }
      "Escape" "Tab" rfl rfl⟩

/-- C8: starting from an empty dispatch log, every event either component
ever dispatches under any input sequence has `bubbles` and `composed`
set, and its `detail` payload is the plain-data snapshot of the
identifying properties (`name`/`title` for the card, `skill`/`level` for
the badge). -/
theorem C8_event_bubbles_composed_payload (c : ProfileCard) (b : SkillBadge)
    (ins ins' : List Input) (hc : c.dispatched = []) (hb : b.dispatched = []) :
    (∀ e ∈ (c.run ins).dispatched,
        e.name = "profile-click" ∧ e.bubbles = true ∧ e.composed = true ∧
        e.detail = [("name", c.name), ("title", c.title)]) ∧
    (∀ e ∈ (b.run ins').dispatched,
        e.name = "badge-click" ∧ e.bubbles = true ∧ e.composed = true ∧
        e.detail = [("skill", b.skill), ("level", b.level)]) := by
  constructor
  · intro e he
    rcases c.run_events ins e he with h | h
    · rw [hc] at h
      exact absurd h (List.not_mem_nil e)
    · subst h
      exact ⟨rfl, rfl, rfl, rfl⟩
  · intro e he
    rcases b.sb_run_events ins' e he with h | h
    · rw [hb] at h
      exact absurd h (List.not_mem_nil e)
    · subst h
      exact ⟨rfl, rfl, rfl, rfl⟩

/-- Witness for C8: a clickable card and badge each receive a click; the
dispatched events are checked to bubble, compose and carry the snapshot. -/
theorem C8_event_bubbles_composed_payload_witness :
    ({ name := "A", title := "B", clickable := true : ProfileCard }).dispatched = [] ∧
    ({ skill := "Lit", level := "expert", clickable := true : SkillBadge }).dispatched = [] ∧
    ((∀ e ∈ (ProfileCard.run { name := "A", title := "B", clickable := true }
          [Input.click]).dispatched,
        e.name = "profile-click" ∧ e.bubbles = true ∧ e.composed = true ∧
        e.detail = [("name", "A"), ("title", "B")]) ∧
     (∀ e ∈ (SkillBadge.run { skill := "Lit", level := "expert", clickable := true }
          [Input.click]).dispatched,
        e.name = "badge-click" ∧ e.bubbles = true ∧ e.composed = true ∧
        e.detail = [("skill", "Lit"), ("level", "expert")])) :=
  ⟨rfl, rfl,
    C8_event_bubbles_composed_payload
      { name := "A", title := "B", clickable := true }
      { skill := "Lit", level := "expert", clickable := true }
      [Input.click] [Input.click] rfl rfl⟩

/-- C9: the activation handlers of both components leave every reactive
property (`name`, `title`, `avatar`, `skill`, `level`, `clickable`)
unchanged for every input key: dispatching never mutates attribute state. -/
theorem C9_handlers_preserve_properties (c : ProfileCard) (b : SkillBadge) (k k' : String) :
    (c.handleClick.name = c.name ∧ c.handleClick.title = c.title ∧
     c.handleClick.avatar = c.avatar ∧ c.handleClick.clickable = c.clickable) ∧
    ((c.handleKeyDown k).1.name = c.name ∧ (c.handleKeyDown k).1.title = c.title ∧
     (c.handleKeyDown k).1.avatar = c.avatar ∧ (c.handleKeyDown k).1.clickable = c.clickable) ∧
    (b.handleClick.skill = b.skill ∧ b.handleClick.level = b.level ∧
     b.handleClick.clickable = b.clickable) ∧
    ((b.handleKeyDown k').1.skill = b.skill ∧ (b.handleKeyDown k').1.level = b.level ∧
     (b.handleKeyDown k').1.clickable = b.clickable) :=
  ⟨c.handleClick_frame, c.handleKeyDown_frame k, b.sb_handleClick_frame, b.sb_handleKeyDown_frame k'⟩

/-- C10: with `clickable` false, the keydown handler of either component
never calls preventDefault, for every key, including Enter and Space. -/
theorem C10_interactive_false_never_prevents_default (c : ProfileCard) (b : SkillBadge)
    (k k' : String) (hc : c.clickable = false) (hb : b.clickable = false) :
    (c.handleKeyDown k).2 = false ∧ (b.handleKeyDown k').2 = false := by
  simp [ProfileCard.handleKeyDown, SkillBadge.handleKeyDown, hc, hb]

/-- Witness for C10: Enter on a non-clickable card and Space on a
non-clickable badge, with default not prevented. -/
theorem C10_interactive_false_never_prevents_default_witness :
    ({ name := "Sarah", clickable := false : ProfileCard }).clickable = false ∧
    ({ skill := "Lit", clickable := false : SkillBadge }).clickable = false ∧
    (({ name := "Sarah", clickable := false : ProfileCard }).handleKeyDown "Enter").2 = false ∧
    (({ skill := "Lit", clickable := false : SkillBadge }).handleKeyDown " ").2 = false :=
  ⟨rfl, rfl,
    (C10_interactive_false_never_prevents_default
      { name := "Sarah", clickable := false }
      { skill := "Lit", clickable := false } "Enter" " " rfl rfl).1,
    (C10_interactive_false_never_prevents_default
      { name := "Sarah", clickable := false }
      { skill := "Lit", clickable := false } "Enter" " " rfl rfl).2⟩

/-- Counterexample to C1: with the invalid level "wizard", the badge root
commits the class attribute "badge wizard", whose DOM class tokens are
badge and wizard — a class derived from the invalid string does appear,
and the `intermediate` class does not. -/
theorem C1_no_fallback_counterexample :
    "wizard" ∉ validLevels ∧
    (SkillBadge.render { skill := "Lit", level := "wizard" }).attr "class" = some "badge wizard" ∧
    domTokens "badge wizard" = ["badge", "wizard"] ∧
    "intermediate" ∉ SkillBadge.rootClassTokens "wizard" false ∧
    "wizard" ∈ SkillBadge.rootClassTokens "wizard" false :=
  ⟨by decide, by decide, by decide, by decide, by decide⟩

/-- C1 (amended): an invalid `level` string is resolved silently — render
is total and surfaces no error — but nothing falls back to
`intermediate`: the string is used verbatim as a class key, so (a) the
root carries the `intermediate` class token exactly when the supplied
string itself contains `intermediate` as a whitespace-separated token
(never injected by a fallback), and (b) every token of the supplied
string appears as a class token on the root, except when the whole
string is exactly `clickable`, whose object key collides with the
`clickable` flag.  The hypothesis delimits the claim's domain of invalid
values; the code path is uniform in the supplied string. -/
theorem C1_invalid_level_no_fallback (level : String) (clickable : Bool)
    (h : level ∉ validLevels) :
    ("intermediate" ∈ SkillBadge.rootClassTokens level clickable ↔
        "intermediate" ∈ domTokens level) ∧
    (level ≠ "clickable" →
        ∀ t ∈ domTokens level, t ∈ SkillBadge.rootClassTokens level clickable) := by
  by_cases hb : level = "badge"
  · subst hb
    cases clickable
    · exact ⟨by decide, fun _ => by decide⟩
    · exact ⟨by decide, fun _ => by decide⟩
  · by_cases hcl : level = "clickable"
    · subst hcl
      cases clickable
      · exact ⟨by decide, fun hne => absurd rfl hne⟩
      · exact ⟨by decide, fun hne => absurd rfl hne⟩
    · have hb' : ¬ ("badge" = level) := fun e => hb e.symm
      have hshape := SkillBadge.sb_rootClassTokens_shape level hb' hcl
      cases clickable
      · rw [hshape.1]
        constructor
        · simp
        · intro _ t ht
          simp [ht]
      · rw [hshape.2]
        constructor
        · simp
        · intro _ t ht
          simp [ht]

/-- Witness for the amended C1: the invalid level "wizard intermediate"
on a clickable badge — here the root does carry the `intermediate`
token, exactly because the supplied string contains it, and both of its
tokens appear on the root. -/
theorem C1_invalid_level_no_fallback_witness :
    "wizard intermediate" ∉ validLevels ∧
    (("intermediate" ∈ SkillBadge.rootClassTokens "wizard intermediate" true ↔
        "intermediate" ∈ domTokens "wizard intermediate") ∧
     ("wizard intermediate" ≠ "clickable" →
        ∀ t ∈ domTokens "wizard intermediate",
          t ∈ SkillBadge.rootClassTokens "wizard intermediate" true)) :=
  ⟨by decide, C1_invalid_level_no_fallback "wizard intermediate" true (by decide)⟩

/-- C4: for each of the four valid levels, the classes on the badge root
contain exactly one of the four level classes, namely the current level;
the root class attribute is exactly the join of those classes. -/
theorem C4_exactly_one_level_class (skill level : String) (clickable : Bool)
    (h : level ∈ validLevels) :
    (SkillBadge.classes level clickable).filter (fun s => decide (s ∈ validLevels)) = [level] ∧
    (SkillBadge.renderView skill level clickable).attr "class" =
      some (String.intercalate " " (SkillBadge.classes level clickable)) := by
  constructor
  · simp only [validLevels, List.mem_cons, List.mem_singleton, List.not_mem_nil, or_false] at h
    rcases h with rfl | rfl | rfl | rfl <;> cases clickable <;> decide
  · simp [SkillBadge.renderView, Node.attr, getAttr]

/-- Witness for C4: the level "advanced" on a non-clickable badge yields
exactly the class list filtered to ["advanced"]. -/
theorem C4_exactly_one_level_class_witness :
    "advanced" ∈ validLevels ∧
    ((SkillBadge.classes "advanced" false).filter (fun s => decide (s ∈ validLevels)) =
        ["advanced"] ∧
     (SkillBadge.renderView "TypeScript" "advanced" false).attr "class" =
        some (String.intercalate " " (SkillBadge.classes "advanced" false))) :=
  ⟨by decide, C4_exactly_one_level_class "TypeScript" "advanced" false (by decide)⟩

/-- C5: when `avatar` is empty the rendered card contains no `img`
element; when non-empty it contains exactly one, whose `alt` attribute is
"Avatar of " concatenated with `name`. -/
theorem C5_avatar_media (c : ProfileCard) :
    (c.avatar = "" → Node.imgs c.render = []) ∧
    (c.avatar ≠ "" → Node.imgs c.render =
      [[("class", "avatar"), ("src", c.avatar),
        ("alt", "Avatar of " ++ c.name), ("loading", "lazy")]]) := by
  constructor <;> intro h <;> by_cases ht : c.title = "" <;>
    simp [ProfileCard.render, ProfileCard.renderView, h, ht, Node.imgs, Node.imgsList]

/-- Witness for C5: a card without avatar renders no `img`; a card with
avatar "a.png" renders exactly one `img` with the derived `alt` text. -/
theorem C5_avatar_media_witness :
    ({ name := "Sarah Johnson", title := "Frontend Developer", avatar := "" : ProfileCard }).avatar = "" ∧
    ({ name := "Sarah", avatar := "a.png" : ProfileCard }).avatar ≠ "" ∧
    Node.imgs (ProfileCard.render
        { name := "Sarah Johnson", title := "Frontend Developer", avatar := "" }) = [] ∧
    Node.imgs (ProfileCard.render { name := "Sarah", avatar := "a.png" }) =
      [[("class", "avatar"), ("src", "a.png"),
        ("alt", "Avatar of " ++ "Sarah"), ("loading", "lazy")]] :=
  ⟨rfl, by decide,
    (C5_avatar_media
      { name := "Sarah Johnson", title := "Frontend Developer", avatar := "" }).1 rfl,
    (C5_avatar_media { name := "Sarah", avatar := "a.png" }).2 (by decide)⟩

/-- C6: render of either component is a pure function of the reactive
properties it reads: two instances agreeing on those properties render
structurally identical output, independently of any other instance state
(here, the dispatch log); in particular two calls with no intervening
mutation agree. -/
theorem C6_render_deterministic (c c' : ProfileCard) (b b' : SkillBadge)
    (h1 : c.name = c'.name) (h2 : c.title = c'.title)
    (h3 : c.avatar = c'.avatar) (h4 : c.clickable = c'.clickable)
    (h5 : b.skill = b'.skill) (h6 : b.level = b'.level) (h7 : b.clickable = b'.clickable) :
    c.render = c'.render ∧ b.render = b'.render := by
  unfold ProfileCard.render SkillBadge.render
  rw [h1, h2, h3, h4, h5, h6, h7]
  exact ⟨rfl, rfl⟩

/-- Witness for C6: instances agreeing on all reactive properties but
with different dispatch logs render identically. -/
theorem C6_render_deterministic_witness :
    ({ name := "A", clickable := true : ProfileCard }).name =
      ({ name := "A", clickable := true,
         dispatched := [{ name := "profile-click", detail := [], bubbles := true,
                          composed := true }] : ProfileCard }).name ∧
    ProfileCard.render { name := "A", clickable := true } =
      ProfileCard.render
        { name := "A", clickable := true,
          dispatched := [{ name := "profile-click", detail := [], bubbles := true,
                           composed := true }] } ∧
    SkillBadge.render { skill := "Lit", level := "expert" } =
      SkillBadge.render
        { skill := "Lit", level := "expert",
          dispatched := [{ name := "badge-click", detail := [], bubbles := true,
                           composed := true }] } :=
  ⟨rfl,
    (C6_render_deterministic
      { name := "A", clickable := true }
      { name := "A", clickable := true,
        dispatched := [{ name := "profile-click", detail := [], bubbles := true,
                         composed := true }] }
      { skill := "Lit", level := "expert" }
      { skill := "Lit", level := "expert",
        dispatched := [{ name := "badge-click", detail := [], bubbles := true,
                         composed := true }] }
      rfl rfl rfl rfl rfl rfl rfl).1,
    (C6_render_deterministic
      { name := "A", clickable := true }
      { name := "A", clickable := true,
        dispatched := [{ name := "profile-click", detail := [], bubbles := true,
                         composed := true }] }
      { skill := "Lit", level := "expert" }
      { skill := "Lit", level := "expert",
        dispatched := [{ name := "badge-click", detail := [], bubbles := true,
                         composed := true }] }
      rfl rfl rfl rfl rfl rfl rfl).2⟩

/-- C7: the rendered root of either component carries tabindex "0" and
role "button" exactly when `clickable` is true, and tabindex "-1" with a
static role (article for the card, status for the badge) otherwise. -/
theorem C7_role_and_tabindex (c : ProfileCard) (b : SkillBadge) :
    c.render.attr "tabindex" = some (if c.clickable then "0" else "-1") ∧
    c.render.attr "role" = some (if c.clickable then "button" else "article") ∧
    b.render.attr "tabindex" = some (if b.clickable then "0" else "-1") ∧
    b.render.attr "role" = some (if b.clickable then "button" else "status") := by
  cases hc : c.clickable <;> cases hb : b.clickable <;>
    simp [ProfileCard.render, ProfileCard.renderView, SkillBadge.render, SkillBadge.renderView,
      Node.attr, getAttr, hc, hb]
